import Mathlib

set_option maxHeartbeats 1000000

/-!
Shallow embedding of the CodeCore AI learning client: the API client
validation layer (api client file) and the task/session state manager
(frontend script.js).  JavaScript strings are Lean strings, JS numbers
that the claims touch are integers, absent values are `none`, and the
durable key-value store (localStorage) is an explicit record threaded
through the operations.
-/

namespace Copilot

/-- A JavaScript runtime value, restricted to the shapes the question
pipeline receives: strings, integer numbers, booleans, null, undefined,
and plain objects exposing the text-bearing fields `question`, `text`,
`title` (an absent field is `none`, a present string field is `some`). -/
inductive JSVal where
  | vstr (s : String)
  | vnum (n : Int)
  | vbool (b : Bool)
  | vnull
  | vundef
  | vobj (question text title : Option String)
deriving DecidableEq

/-- JS `String(v)` coercion for the values of `JSVal`; a plain object
stringifies to "[object Object]". -/
def jsToString : JSVal → String
  | .vstr s => s
  | .vnum n => toString n
  | .vbool true => "true"
  | .vbool false => "false"
  | .vnull => "null"
  | .vundef => "undefined"
  | .vobj _ _ _ => "[object Object]"

/-- JS `String.prototype.trim()`: strip leading and trailing whitespace,
modelled directly over the character list so it is kernel-computable. -/
def jsTrim (s : String) : String :=
  String.mk (((s.data.dropWhile Char.isWhitespace).reverse.dropWhile Char.isWhitespace).reverse)

/-- JS `String.prototype.toLowerCase()`, modelled over the character
list so it is kernel-computable. -/
def jsToLower (s : String) : String :=
  String.mk (s.data.map Char.toLower)

/-- JS truthiness of an optional string field: `undefined` and the empty
string are falsy, every other string is truthy. -/
def otruthy : Option String → Bool
  | none => false
  | some s => !(s == "")

/-- JS `f1 || f2 || ... || d`: the first truthy field value, else the
final default `d`. -/
def firstTruthy : List (Option String) → String → String
  | [], d => d
  | f :: rest, d =>
    match f with
    | some s => if s == "" then firstTruthy rest d else s
    | none => firstTruthy rest d

/-- The question-shape normalization performed inside `renderTaskQuestions`
(script.js lines 441-452): a string becomes `{question: q}`; an object with
a truthy `question` field is returned unchanged; any other object becomes
`{question: q.text || q.title || String(q)}`; anything else becomes
`{question: String(q)}`. -/
def renderTaskNormalize : JSVal → JSVal
  | .vstr s => .vobj (some s) none none
  | .vobj qq t ti =>
    if otruthy qq then .vobj qq t ti
    else .vobj (some (firstTruthy [t, ti] (jsToString (.vobj qq t ti)))) none none
  | v => .vobj (some (jsToString v)) none none

/-- The `question` field of a JS value (`undefined` on non-objects). -/
def questionField : JSVal → Option String
  | .vobj qq _ _ => qq
  | _ => none

/-- The canonical question text produced by `renderTaskQuestions`'s
normalization: the `question` field of the normalized object. -/
def renderTaskNormalizeText (v : JSVal) : String :=
  (questionField (renderTaskNormalize v)).getD ""

/-- The question-shape normalization performed at the ingestion point in
`generateQuestionsForTopic` (script.js lines 360-366):
`typeof q === 'string' ? q : q.question || q.text || String(q)`.
Accessing `.question` on `null`/`undefined` throws a TypeError, modelled
as `Except.error`. Note the fallback chain has no `title` step. -/
def genTopicNormalize : JSVal → Except String String
  | .vstr s => .ok s
  | .vobj qq t ti => .ok (firstTruthy [qq, t] (jsToString (.vobj qq t ti)))
  | .vnull => .error ("TypeError: cannot read properties of null")
  | .vundef => .error ("TypeError: cannot read properties of undefined")
  | v => .ok (jsToString v)

/-- Truthiness of a JS string argument that may be absent:
`!s` holds for `undefined` and for the empty string. -/
def jsStrFalsy : Option String → Bool
  | none => true
  | some s => s == ""

/-- Embedding of `APIClient.verifyAnswer` up to the point the network request is
constructed (api client lines 228-253): both arguments must be non-empty
after trim, otherwise the call fails with a validation error before a
request exists. On success the trimmed pair is placed into the request
query parameters. -/
def verifyAnswer (question answer : Option String) : Except String (String × String) :=
  if jsStrFalsy question || (jsTrim (question.getD "") == "") then
    .error ("Question cannot be empty")
  else if jsStrFalsy answer || (jsTrim (answer.getD "") == "") then
    .error ("Answer cannot be empty")
  else
    .ok (jsTrim (question.getD ""), jsTrim (answer.getD ""))

/-- Embedding of `APIClient.generateQuestions` up to the point the network request is
constructed (api client lines 126-147): subject and topic must be truthy,
count must lie in [1,20]; otherwise a validation error is raised before a
request exists. On success the trimmed names and the count become the
request query parameters. -/
def generateQuestions (subject topic : Option String) (count : Int) :
    Except String (String × String × Int) :=
  if jsStrFalsy subject || jsStrFalsy topic then
    .error ("Subject and topic are required")
  else if count < 1 ∨ count > 20 then
    .error ("Count must be between 1 and 20")
  else
    .ok (jsTrim (subject.getD ""), jsTrim (topic.getD ""), count)

/-- Whether an `Except` is an error. -/
def isErr {ε α : Type} : Except ε α → Bool
  | .error _ => true
  | .ok _ => false

instance {ε α : Type} [DecidableEq ε] [DecidableEq α] : DecidableEq (Except ε α) := fun a b =>
  match a, b with
  | .error e1, .error e2 =>
    if h : e1 = e2 then isTrue (by rw [h])
    else isFalse (fun hc => h (Except.error.inj hc))
  | .error _, .ok _ => isFalse (fun hc => Except.noConfusion hc)
  | .ok _, .error _ => isFalse (fun hc => Except.noConfusion hc)
  | .ok a1, .ok a2 =>
    if h : a1 = a2 then isTrue (by rw [h])
    else isFalse (fun hc => h (Except.ok.inj hc))

/-- A topic inside a subject: `{ id: topic-idx, name, questions }`
(script.js lines 60-64). -/
structure Topic where
  id : String
  name : String
  questions : List JSVal
deriving DecidableEq

/-- A subject card as built by `generateSubject` (script.js lines 57-67):
`{ id: Date.now(), name, topics, isAI, createdAt }`. -/
structure Subject where
  id : Nat
  name : String
  topics : List Topic
  isAI : Bool
  createdAt : String
deriving DecidableEq

/-- The `currentTaskData` record written by `viewTopicQuestions` and
updated by `generateQuestionsForTopic` (script.js lines 169-177). -/
structure TaskData where
  subjectId : Nat
  topicId : String
  subject : String
  topic : String
  questions : List JSVal
  needsGeneration : Bool
  apiGenerated : Bool
deriving DecidableEq

/-- A task-history record pushed by `submitAllTaskAnswers`
(script.js lines 628-636). -/
structure HistoryEntry where
  subject : String
  topic : String
  totalQuestions : Nat
  correctAnswers : Nat
  score : Nat
  date : String
  timestamp : Nat
deriving DecidableEq

/-- The durable key-value store (localStorage), with the JSON-encoded
keys the state manager reads and writes. -/
structure Store where
  subjects : List Subject
  currentTaskData : Option TaskData
  taskHistory : List HistoryEntry
deriving DecidableEq

/-- In-memory `AppState.subjects` together with the persisted store. -/
structure ClientState where
  appSubjects : List Subject
  store : Store
deriving DecidableEq

/-- Embedding of `saveState` (script.js lines 14-16): writes `AppState.subjects` to the
persisted `subjects` key. -/
def saveState (st : ClientState) : ClientState :=
  { st with store := { st.store with subjects := st.appSubjects } }

/-- Embedding of `deleteSubject` (script.js lines 149-155): when the user confirms,
keep only the subjects whose id differs from `subjectId`, then persist. -/
def deleteSubject (confirmed : Bool) (subjectId : Nat) (st : ClientState) : ClientState :=
  if confirmed then
    saveState { st with appSubjects := st.appSubjects.filter (fun s => s.id != subjectId) }
  else st

/-- One `{topic, questions}` item of a `/generate` response
(api client `generateContent` result). -/
structure TopicResp where
  topic : String
  questions : Option (List JSVal)
deriving DecidableEq

/-- A parsed `/generate` success payload:
`{ subject, topics, total_topics, total_questions }`. -/
structure GenContentResp where
  topics : List TopicResp
  total_topics : Nat
  total_questions : Nat
deriving DecidableEq

/-- Embedding of `generateSubject` (script.js lines 30-133). The DOM input value, the
backend call's outcome, and the two clock reads (`Date.now()` and
`new Date().toISOString()`) are explicit parameters. The function trims
the input, rejects an empty name, rejects a case-insensitive duplicate
name, and otherwise: on a successful response builds the new subject,
prepends it (`unshift`) and persists; on a thrown error it only shows a
message and leaves all state untouched. -/
def generateSubject (inputValue : String) (apiResult : Except String GenContentResp)
    (now : Nat) (nowIso : String) (st : ClientState) : ClientState :=
  let subjectName := jsTrim inputValue
  if subjectName == "" then st
  else if st.appSubjects.any (fun s => jsToLower s.name == jsToLower subjectName) then st
  else
    match apiResult with
    | .error _ => st
    | .ok resp =>
      let newSubject : Subject := {
        id := now
        name := subjectName
        topics := resp.topics.enum.map (fun p =>
          { id := "topic-" ++ toString p.1
            name := p.2.topic
            questions := p.2.questions.getD [] })
        isAI := true
        createdAt := nowIso }
      saveState { st with appSubjects := newSubject :: st.appSubjects }

/-- The task-page window globals set by `renderTaskQuestions`
(script.js lines 455-457): the normalized question list and the
per-question-index answer and score arrays. -/
structure WindowTask where
  currentTaskQuestions : List JSVal
  taskAnswers : List (Option String)
  taskScores : List (Option Nat)
deriving DecidableEq

/-- JS `Math.round (num / den)` for a non-negative rational, i.e.
the floor of `num / den + 1 / 2`. -/
def mathRound (num den : Nat) : Nat := (2 * num + den) / (2 * den)

/-- The observable outcome of `submitAllTaskAnswers`. -/
inductive SubmitOutcome where
  | noTask
  | cancelled
  | completed (entry : HistoryEntry)
deriving DecidableEq

/-- Embedding of `submitAllTaskAnswers` (script.js lines 605-644). Reads
`currentTaskData`; alerts and stops when it is absent. When fewer
questions are answered than exist and the user declines the confirm
dialog (`confirmOk = false`), stops without touching the store.
Otherwise computes `correctAnswers` as the number of per-question scores
strictly equal to 1, the score as `Math.round((correct/total)*100)`,
pushes one record onto `taskHistory`, and persists it. The
`currentTaskData` key is not removed. -/
def submitAllTaskAnswers (confirmOk : Bool) (now : Nat) (nowIso : String)
    (w : WindowTask) (store : Store) : Store × SubmitOutcome :=
  match store.currentTaskData with
  | none => (store, .noTask)
  | some taskData =>
    let totalQuestions := w.currentTaskQuestions.length
    let answeredQuestions := (w.taskAnswers.filter (fun a => a != none)).length
    if answeredQuestions < totalQuestions ∧ confirmOk = false then
      (store, .cancelled)
    else
      let correctAnswers := (w.taskScores.filter (fun s => s == some 1)).length
      let score := mathRound (100 * correctAnswers) totalQuestions
      let entry : HistoryEntry := {
        subject := taskData.subject
        topic := taskData.topic
        totalQuestions := totalQuestions
        correctAnswers := correctAnswers
        score := score
        date := nowIso
        timestamp := now }
      ({ store with taskHistory := store.taskHistory ++ [entry] }, .completed entry)

/-- A fragment of markup written into `questionsContainer.innerHTML`. -/
inductive Fragment where
  | failureBanner (msg : String)
  | emptyStateNoQuestions
  | emptyStateBackToSubjects
  | questionsMarkup (qs : List JSVal)
deriving DecidableEq

/-- Embedding of `renderTaskQuestions` (script.js lines 425-502). An empty or missing
question list replaces the container with the no-questions empty state
and leaves the window globals alone; otherwise the questions are
normalized, the window globals are reset, and the container content is
replaced (`innerHTML =`) by the questions markup. Returns the new window
state and the container content. -/
def renderTaskQuestions (qs : List JSVal) (w : WindowTask) :
    WindowTask × List Fragment :=
  if qs.length = 0 then (w, [.emptyStateNoQuestions])
  else
    let normalized := qs.map renderTaskNormalize
    ({ currentTaskQuestions := normalized
       taskAnswers := List.replicate normalized.length none
       taskScores := List.replicate normalized.length none },
     [.questionsMarkup normalized])

/-- The shape of a `/generate-questions` response as inspected by
`generateQuestionsForTopic` (script.js lines 358-369): an object with a
`questions` array, a bare array, or anything else (which raises
"Invalid response format from API" inside the try block). -/
inductive GenQResponse where
  | withQuestions (qs : List JSVal)
  | selfArray (qs : List JSVal)
  | invalid
deriving DecidableEq

/-- Normalization of one raw question at the ingestion point, producing
the stored `{ question }` object (script.js lines 360-361, 364-365). -/
def genTopicNormalizeObj (q : JSVal) : Except String JSVal :=
  (genTopicNormalize q).map (fun s => JSVal.vobj (some s) none none)

/-- Map the ingestion normalization over a question array; the first
TypeError aborts the whole map (it is thrown inside the try block). -/
def genMapQuestions (qs : List JSVal) : Except String (List JSVal) :=
  qs.mapM genTopicNormalizeObj

/-- Update the first topic with the given id inside a topic list, setting
its questions; the boolean records whether it was found
(script.js lines 378-385, `find` then in-place mutation). -/
def updateFirstTopic (topics : List Topic) (tid : String) (qs : List JSVal) :
    List Topic × Bool :=
  match topics with
  | [] => ([], false)
  | t :: rest =>
    if t.id == tid then ({ t with questions := qs } :: rest, true)
    else
      let r := updateFirstTopic rest tid qs
      (t :: r.1, r.2)

/-- Update the first subject with the given id, rewriting the questions of
its first topic with the given topic id; the boolean records whether both
the subject and the topic were found (only then does the source call
`saveState`). -/
def updateFirstSubject (subjects : List Subject) (sid : Nat) (tid : String)
    (qs : List JSVal) : List Subject × Bool :=
  match subjects with
  | [] => ([], false)
  | s :: rest =>
    if s.id == sid then
      let r := updateFirstTopic s.topics tid qs
      ({ s with topics := r.1 } :: rest, r.2)
    else
      let r := updateFirstSubject rest sid tid qs
      (s :: r.1, r.2)

/-- Embedding of `generateQuestionsForTopic` (script.js lines 330-420), with the
backend call's outcome as an explicit parameter. On success the raw
questions are normalized, `currentTaskData` is rewritten with them, the
owning subject's topic is updated (persisting only when found), and the
questions are rendered. On any failure inside the try block (backend
error, timeout, invalid response shape, TypeError during normalization)
the catch block runs: the container is set to a failure banner, then if
cached questions exist `renderTaskQuestions` is called — whose
`innerHTML =` assignment replaces the banner — and otherwise the
back-to-subjects empty state is appended after the banner. No exception
escapes and the task history is never touched. -/
def generateQuestionsForTopic (td : TaskData) (apiResult : Except String GenQResponse)
    (st : ClientState) (w : WindowTask) :
    ClientState × WindowTask × List Fragment :=
  let fallback := fun (msg : String) =>
    let banner := [Fragment.failureBanner msg]
    if td.questions.length > 0 then
      let r := renderTaskQuestions td.questions w
      (st, r.1, r.2)
    else
      (st, w, banner ++ [Fragment.emptyStateBackToSubjects])
  let qsE :=
    match apiResult with
    | .error msg => Except.error msg
    | .ok (.withQuestions qs) => genMapQuestions qs
    | .ok (.selfArray qs) => genMapQuestions qs
    | .ok .invalid => Except.error ("Invalid response format from API")
  match qsE with
  | .error msg => fallback msg
  | .ok questions =>
    let td1 := { td with questions := questions, apiGenerated := true, needsGeneration := false }
    let st1 := { st with store := { st.store with currentTaskData := some td1 } }
    let upd := updateFirstSubject st1.appSubjects td.subjectId td.topicId questions
    let st2 :=
      if upd.2 then saveState { st1 with appSubjects := upd.1 }
      else { st1 with appSubjects := upd.1 }
    let r := renderTaskQuestions questions w
    (st2, r.1, r.2)

/-- A session of five normalized questions. -/
def sampleQuestions : List JSVal :=
  [.vobj (some ("Q1")) none none, .vobj (some ("Q2")) none none,
   .vobj (some ("Q3")) none none, .vobj (some ("Q4")) none none,
   .vobj (some ("Q5")) none none]

/-- Window state: 5 questions, 3 answered, 2 verified correct. -/
def sampleWindow : WindowTask :=
  { currentTaskQuestions := sampleQuestions
    taskAnswers := [some ("a1"), some ("a2"), some ("a3"), none, none]
    taskScores := [some 1, some 1, some 0, none, none] }

/-- An active task session record. -/
def sampleTaskData : TaskData :=
  { subjectId := 7
    topicId := "topic-0"
    subject := "Python"
    topic := "Functions"
    questions := sampleQuestions
    needsGeneration := false
    apiGenerated := true }

/-- A store holding the active session and an empty history. -/
def sampleStore : Store :=
  { subjects := [], currentTaskData := some sampleTaskData, taskHistory := [] }

/-- A client state around `sampleStore`. -/
def sampleClientState : ClientState :=
  { appSubjects := [], store := sampleStore }

/-- A session whose topic has one previously cached question. -/
def cachedTaskData : TaskData :=
  { sampleTaskData with questions := [.vstr ("Cached question")] }

/-- A session whose topic has no cached questions. -/
def emptyCacheTaskData : TaskData :=
  { sampleTaskData with questions := [] }

/-- Two subjects with distinct ids and case-insensitively distinct names. -/
def subjA : Subject :=
  { id := 1, name := "Python", topics := [], isAI := true, createdAt := "d1" }

/-- Second sample subject. -/
def subjB : Subject :=
  { id := 2, name := "Algebra", topics := [], isAI := true, createdAt := "d2" }

/-- A client state holding the two sample subjects, persisted in sync. -/
def twoSubjectState : ClientState :=
  { appSubjects := [subjA, subjB]
    store := { subjects := [subjA, subjB], currentTaskData := none, taskHistory := [] } }

/-- A successful `/generate` payload with one topic. -/
def sampleGenResp : GenContentResp :=
  { topics := [{ topic := "Basics", questions := some [.vstr ("Q")] }]
    total_topics := 1
    total_questions := 1 }

/-! ## Theorems -/

theorem firstTruthy_ne_empty (l : List (Option String)) (d : String) (hd : d ≠ "") :
    firstTruthy l d ≠ "" := by
  induction l with
  | nil => simpa [firstTruthy] using hd
  | cons f rest ih =>
    cases f with
    | none => simpa [firstTruthy] using ih
    | some s =>
      by_cases hs : s = ""
      · simpa [firstTruthy, hs] using ih
      · simp [firstTruthy, hs]

theorem renderTaskNormalize_shape (q : JSVal) :
    ∃ t ti, renderTaskNormalize q = .vobj (some (renderTaskNormalizeText q)) t ti := by
  cases q with
  | vstr s => exact ⟨none, none, rfl⟩
  | vnum n => exact ⟨none, none, rfl⟩
  | vbool b => exact ⟨none, none, rfl⟩
  | vnull => exact ⟨none, none, rfl⟩
  | vundef => exact ⟨none, none, rfl⟩
  | vobj qq t ti =>
    cases qq with
    | none => exact ⟨none, none, by simp [renderTaskNormalize, renderTaskNormalizeText,
        questionField, otruthy]⟩
    | some s =>
      by_cases hs : s = ""
      · exact ⟨none, none, by simp [renderTaskNormalize, renderTaskNormalizeText,
          questionField, otruthy, hs]⟩
      · exact ⟨t, ti, by simp [renderTaskNormalize, renderTaskNormalizeText,
          questionField, otruthy, hs]⟩

/-- C3 counterexample: normalizing the empty-string question once gives
the canonical object with empty text, but normalizing that result again
replaces the text with "[object Object]", so normalization is not
idempotent as claimed. -/
theorem renderTaskNormalize_not_idempotent_cex :
    renderTaskNormalize (renderTaskNormalize (JSVal.vstr (""))) ≠
      renderTaskNormalize (JSVal.vstr ("")) := by decide

/-- C3 (amended): question-shape normalization is idempotent for every
input whose canonical question text is non-empty; in particular
normalizing an already-normalized question with non-empty text yields
the identical canonical object. -/
theorem renderTaskNormalize_idem_of_nonempty (q : JSVal)
    (h : renderTaskNormalizeText q ≠ "") :
    renderTaskNormalize (renderTaskNormalize q) = renderTaskNormalize q := by
  obtain ⟨t, ti, hshape⟩ := renderTaskNormalize_shape q
  rw [hshape]
  simp [renderTaskNormalize, otruthy, h]

/-- C3 witness: the amended idempotence theorem applied to a concrete
already-interesting input. -/
theorem renderTaskNormalize_idem_of_nonempty_witness :
    renderTaskNormalize (renderTaskNormalize (JSVal.vstr ("What is a list?"))) =
      renderTaskNormalize (JSVal.vstr ("What is a list?")) :=
  renderTaskNormalize_idem_of_nonempty (JSVal.vstr ("What is a list?")) (by decide)

/-- C4 counterexample: on an object whose only text-bearing field is
`title`, the ingestion normalization of `generateQuestionsForTopic`
(fallback chain question, text, String(q)) coerces to "[object Object]",
while the normalization in `renderTaskQuestions` (fallback chain text,
title, String(q)) uses the title — so the two are not the same function. -/
theorem normalization_functions_differ_cex :
    genTopicNormalize (JSVal.vobj none none (some ("Physics"))) ≠
      Except.ok (renderTaskNormalizeText (JSVal.vobj none none (some ("Physics"))))
    ∧ genTopicNormalize (JSVal.vobj none none (some ("Physics"))) =
      Except.ok ("[object Object]")
    ∧ renderTaskNormalizeText (JSVal.vobj none none (some ("Physics"))) = "Physics" := by
  refine ⟨by decide, rfl, rfl⟩

/-- C4 (amended): the two normalizations agree on every question value
except the problematic ones the counterexample exposes: they produce the
same canonical question text for plain strings, numbers, booleans, and
objects, provided the object does not rely on the `title` fallback alone
(i.e. its `question` or `text` field is truthy, or its `title` field is
falsy too); `null` and `undefined` are excluded because the ingestion
normalization throws a TypeError on them. -/
theorem normalization_agree_off_title (q : JSVal)
    (hnull : q ≠ JSVal.vnull) (hundef : q ≠ JSVal.vundef)
    (htitle : ∀ qq t ti, q = JSVal.vobj qq t ti →
      otruthy qq = true ∨ otruthy t = true ∨ otruthy ti = false) :
    genTopicNormalize q = Except.ok (renderTaskNormalizeText q) := by
  cases q with
  | vstr s => rfl
  | vnum n => rfl
  | vbool b => cases b <;> rfl
  | vnull => exact absurd rfl hnull
  | vundef => exact absurd rfl hundef
  | vobj qq t ti =>
    have hd := htitle qq t ti rfl
    cases qq with
    | some s =>
      by_cases hs : s = ""
      · cases t with
        | some u =>
          by_cases hu : u = ""
          · cases ti with
            | some v =>
              have hv : v = "" := by
                rcases hd with h1 | h1 | h1
                · simp [otruthy, hs] at h1
                · simp [otruthy, hu] at h1
                · simpa [otruthy] using h1
              simp [genTopicNormalize, renderTaskNormalizeText, renderTaskNormalize,
                questionField, otruthy, firstTruthy, jsToString, hs, hu, hv]
            | none =>
              simp [genTopicNormalize, renderTaskNormalizeText, renderTaskNormalize,
                questionField, otruthy, firstTruthy, jsToString, hs, hu]
          · simp [genTopicNormalize, renderTaskNormalizeText, renderTaskNormalize,
              questionField, otruthy, firstTruthy, jsToString, hs, hu]
        | none =>
          cases ti with
          | some v =>
            have hv : v = "" := by
              rcases hd with h1 | h1 | h1
              · simp [otruthy, hs] at h1
              · simp [otruthy] at h1
              · simpa [otruthy] using h1
            simp [genTopicNormalize, renderTaskNormalizeText, renderTaskNormalize,
              questionField, otruthy, firstTruthy, jsToString, hs, hv]
          | none =>
            simp [genTopicNormalize, renderTaskNormalizeText, renderTaskNormalize,
              questionField, otruthy, firstTruthy, jsToString, hs]
      · simp [genTopicNormalize, renderTaskNormalizeText, renderTaskNormalize,
          questionField, otruthy, firstTruthy, jsToString, hs]
    | none =>
      cases t with
      | some u =>
        by_cases hu : u = ""
        · cases ti with
          | some v =>
            have hv : v = "" := by
              rcases hd with h1 | h1 | h1
              · simp [otruthy] at h1
              · simp [otruthy, hu] at h1
              · simpa [otruthy] using h1
            simp [genTopicNormalize, renderTaskNormalizeText, renderTaskNormalize,
              questionField, otruthy, firstTruthy, jsToString, hu, hv]
          | none =>
            simp [genTopicNormalize, renderTaskNormalizeText, renderTaskNormalize,
              questionField, otruthy, firstTruthy, jsToString, hu]
        · simp [genTopicNormalize, renderTaskNormalizeText, renderTaskNormalize,
            questionField, otruthy, firstTruthy, jsToString, hu]
      | none =>
        cases ti with
        | some v =>
          have hv : v = "" := by
            rcases hd with h1 | h1 | h1
            · simp [otruthy] at h1
            · simp [otruthy] at h1
            · simpa [otruthy] using h1
          simp [genTopicNormalize, renderTaskNormalizeText, renderTaskNormalize,
            questionField, otruthy, firstTruthy, jsToString, hv]
        | none =>
          simp [genTopicNormalize, renderTaskNormalizeText, renderTaskNormalize,
            questionField, otruthy, firstTruthy, jsToString]

/-- C4 witness: the agreement theorem applied to a concrete object whose
`question` field carries the text. -/
theorem normalization_agree_off_title_witness :
    genTopicNormalize (JSVal.vobj (some ("What is recursion?")) none (some ("t"))) =
      Except.ok (renderTaskNormalizeText
        (JSVal.vobj (some ("What is recursion?")) none (some ("t")))) :=
  normalization_agree_off_title (JSVal.vobj (some ("What is recursion?")) none (some ("t")))
    (by decide) (by decide)
    (by intro qq t ti h; cases h; exact Or.inl (by decide))

theorem falsy_or_trim_empty (x : Option String) :
    (jsStrFalsy x || (jsTrim (x.getD "") == "")) = (jsTrim (x.getD "") == "") := by
  cases x with
  | none =>
    have h0 : jsTrim ("") = "" := rfl
    simp [jsStrFalsy, h0]
  | some s =>
    by_cases hs : s = ""
    · subst hs
      have h0 : jsTrim ("") = "" := rfl
      simp [jsStrFalsy, h0]
    · simp [jsStrFalsy, hs]

/-- C5: `verifyAnswer` fails with a validation error exactly when the
question or the answer is absent or empty after trimming — the error is
produced before the request value exists — and any constructed request
carries precisely the trimmed question and answer. -/
theorem verifyAnswer_validation (question answer : Option String) :
    (isErr (verifyAnswer question answer) = true ↔
      (jsTrim (question.getD "") = "" ∨ jsTrim (answer.getD "") = ""))
    ∧ ∀ q1 a1, verifyAnswer question answer = Except.ok (q1, a1) →
        q1 = jsTrim (question.getD "") ∧ a1 = jsTrim (answer.getD "") := by
  have hv : verifyAnswer question answer =
      if jsTrim (question.getD "") == "" then Except.error ("Question cannot be empty")
      else if jsTrim (answer.getD "") == "" then Except.error ("Answer cannot be empty")
      else Except.ok (jsTrim (question.getD ""), jsTrim (answer.getD "")) := by
    rw [verifyAnswer, falsy_or_trim_empty, falsy_or_trim_empty]
  by_cases hq : jsTrim (question.getD "") = "" <;>
    by_cases ha : jsTrim (answer.getD "") = "" <;>
      simp [hv, hq, ha, isErr]

/-- C5 witness: a blank question is rejected, and a concrete well-formed
pair constructs the request with the trimmed fields. -/
theorem verifyAnswer_validation_witness :
    isErr (verifyAnswer (some ("   ")) (some ("An answer"))) = true
    ∧ ("Q" = jsTrim ((some ("Q")).getD "") ∧ "A" = jsTrim ((some ("A")).getD "")) := by
  constructor
  · exact ((verifyAnswer_validation (some ("   ")) (some ("An answer"))).1).mpr
      (Or.inl (by decide))
  · exact (verifyAnswer_validation (some ("Q")) (some ("A"))).2 ("Q") ("A") (by decide)

/-- C6: `generateQuestions` fails with a validation error for any count
outside [1,20] or a missing/empty subject or topic, before the request
value exists; with truthy subject and topic and a count in [1,20] the
request is constructed from the trimmed names and the count. -/
theorem generateQuestions_count_validation (subject topic : Option String) (count : Int) :
    ((jsStrFalsy subject = true ∨ jsStrFalsy topic = true ∨ count < 1 ∨ 20 < count) →
      isErr (generateQuestions subject topic count) = true)
    ∧ (jsStrFalsy subject = false → jsStrFalsy topic = false →
        1 ≤ count → count ≤ 20 →
        generateQuestions subject topic count =
          Except.ok (jsTrim (subject.getD ""), jsTrim (topic.getD ""), count)) := by
  constructor
  · intro h
    by_cases h1 : (jsStrFalsy subject || jsStrFalsy topic) = true
    · simp [generateQuestions, h1, isErr]
    · have h2 : count < 1 ∨ count > 20 := by
        rcases h with h | h | h | h
        · simp [h] at h1
        · simp [h] at h1
        · exact Or.inl h
        · exact Or.inr h
      simp [generateQuestions, h1, h2, isErr]
  · intro hs ht h1c h2c
    have hb : (jsStrFalsy subject || jsStrFalsy topic) = false := by simp [hs, ht]
    have hc : ¬(count < 1 ∨ count > 20) := by omega
    simp [generateQuestions, hb, hc]

/-- C6 witness: count 0 and 21 fail, a missing subject fails, and counts
1 and 20 with non-empty names construct the request. -/
theorem generateQuestions_count_validation_witness :
    isErr (generateQuestions (some ("Python")) (some ("Functions")) 0) = true
    ∧ isErr (generateQuestions (some ("Python")) (some ("Functions")) 21) = true
    ∧ isErr (generateQuestions none (some ("Functions")) 5) = true
    ∧ generateQuestions (some ("Python")) (some ("Functions")) 1 =
        Except.ok (jsTrim ("Python"), jsTrim ("Functions"), 1)
    ∧ generateQuestions (some ("Python")) (some ("Functions")) 20 =
        Except.ok (jsTrim ("Python"), jsTrim ("Functions"), 20) := by
  refine ⟨?_, ?_, ?_, ?_, ?_⟩
  · exact (generateQuestions_count_validation (some ("Python")) (some ("Functions")) 0).1
      (Or.inr (Or.inr (Or.inl (by decide))))
  · exact (generateQuestions_count_validation (some ("Python")) (some ("Functions")) 21).1
      (Or.inr (Or.inr (Or.inr (by decide))))
  · exact (generateQuestions_count_validation none (some ("Functions")) 5).1
      (Or.inl (by decide))
  · exact (generateQuestions_count_validation (some ("Python")) (some ("Functions")) 1).2
      (by decide) (by decide) (by decide) (by decide)
  · exact (generateQuestions_count_validation (some ("Python")) (some ("Functions")) 20).2
      (by decide) (by decide) (by decide) (by decide)

/-- C1: on bulk submission of a session with at least one question, the
recorded final score is `Math.round (100 * correctCount / totalQuestions)`
where `correctCount` counts the per-question scores strictly equal to 1
and `totalQuestions` is the full question count; under the session
invariant that unanswered questions have no score, an unanswered question
is never counted as correct yet still appears in the denominator. -/
theorem submitAll_final_score (confirmOk : Bool) (now : Nat) (nowIso : String)
    (w : WindowTask) (store : Store) (td : TaskData)
    (htd : store.currentTaskData = some td)
    (_hq : 0 < w.currentTaskQuestions.length)
    (hgo : ¬((w.taskAnswers.filter (fun a => a != none)).length <
        w.currentTaskQuestions.length ∧ confirmOk = false))
    (hinv : ∀ i, w.taskAnswers.getD i none = none → w.taskScores.getD i none = none) :
    ∃ entry,
      (submitAllTaskAnswers confirmOk now nowIso w store).2 = SubmitOutcome.completed entry
      ∧ entry.score = mathRound (100 * (w.taskScores.filter (fun s => s == some 1)).length)
          w.currentTaskQuestions.length
      ∧ entry.totalQuestions = w.currentTaskQuestions.length
      ∧ entry.correctAnswers = (w.taskScores.filter (fun s => s == some 1)).length
      ∧ ∀ i, w.taskAnswers.getD i none = none → ¬(w.taskScores.getD i none = some 1) := by
  refine ⟨{ subject := td.subject, topic := td.topic
            totalQuestions := w.currentTaskQuestions.length
            correctAnswers := (w.taskScores.filter (fun s => s == some 1)).length
            score := mathRound (100 * (w.taskScores.filter (fun s => s == some 1)).length)
              w.currentTaskQuestions.length
            date := nowIso, timestamp := now }, ?_, rfl, rfl, rfl, ?_⟩
  · simp only [submitAllTaskAnswers, htd, if_neg hgo]
  · intro i h
    rw [hinv i h]
    simp

/-- C1 witness: the spec scenario — five questions, three answered, two
correct — completes with totalQuestions 5 and correct count 2, giving
score `mathRound 200 5 = 40`. -/
theorem submitAll_final_score_witness :
    (∃ entry,
      (submitAllTaskAnswers true 0 ("t0") sampleWindow sampleStore).2 =
        SubmitOutcome.completed entry
      ∧ entry.score = mathRound
          (100 * (sampleWindow.taskScores.filter (fun s => s == some 1)).length)
          sampleWindow.currentTaskQuestions.length
      ∧ entry.totalQuestions = sampleWindow.currentTaskQuestions.length
      ∧ entry.correctAnswers = (sampleWindow.taskScores.filter (fun s => s == some 1)).length
      ∧ ∀ i, sampleWindow.taskAnswers.getD i none = none →
          ¬(sampleWindow.taskScores.getD i none = some 1))
    ∧ mathRound (100 * 2) 5 = 40 := by
  constructor
  · refine submitAll_final_score true 0 ("t0") sampleWindow sampleStore sampleTaskData
      rfl (by decide) (by decide) ?_
    intro i h
    match i with
    | 0 => exact absurd h (by decide)
    | 1 => exact absurd h (by decide)
    | 2 => exact absurd h (by decide)
    | 3 => rfl
    | 4 => rfl
    | n + 5 => rfl
  · decide

/-- C2 counterexample: a completed bulk submission (the history gains an
entry) leaves the persisted `currentTaskData` session record in place —
the claimed clearing of the session storage does not happen. -/
theorem submitAll_session_not_cleared_cex :
    (submitAllTaskAnswers true 0 ("t0") sampleWindow sampleStore).1.currentTaskData =
      some sampleTaskData
    ∧ (submitAllTaskAnswers true 0 ("t0") sampleWindow sampleStore).1.taskHistory.length =
      sampleStore.taskHistory.length + 1 :=
  ⟨rfl, rfl⟩

/-- C2 (amended): a completed bulk submission appends exactly one history
entry with the session's subject, topic, question count, correct count and
timestamp, leaves every existing history entry and the subjects key
unchanged, and leaves the persisted current task session record in place
(it is not cleared). -/
theorem submitAll_appends_once_keeps_session (confirmOk : Bool) (now : Nat) (nowIso : String)
    (w : WindowTask) (store : Store) (td : TaskData)
    (htd : store.currentTaskData = some td)
    (hgo : ¬((w.taskAnswers.filter (fun a => a != none)).length <
        w.currentTaskQuestions.length ∧ confirmOk = false)) :
    ∃ entry,
      (submitAllTaskAnswers confirmOk now nowIso w store).1.taskHistory =
        store.taskHistory ++ [entry]
      ∧ (submitAllTaskAnswers confirmOk now nowIso w store).2 =
        SubmitOutcome.completed entry
      ∧ (submitAllTaskAnswers confirmOk now nowIso w store).1.currentTaskData =
        store.currentTaskData
      ∧ (submitAllTaskAnswers confirmOk now nowIso w store).1.subjects = store.subjects
      ∧ entry.subject = td.subject
      ∧ entry.topic = td.topic
      ∧ entry.totalQuestions = w.currentTaskQuestions.length
      ∧ entry.correctAnswers = (w.taskScores.filter (fun s => s == some 1)).length
      ∧ entry.timestamp = now := by
  refine ⟨{ subject := td.subject, topic := td.topic
            totalQuestions := w.currentTaskQuestions.length
            correctAnswers := (w.taskScores.filter (fun s => s == some 1)).length
            score := mathRound (100 * (w.taskScores.filter (fun s => s == some 1)).length)
              w.currentTaskQuestions.length
            date := nowIso, timestamp := now },
          ?_, ?_, ?_, ?_, rfl, rfl, rfl, rfl, rfl⟩ <;>
    simp only [submitAllTaskAnswers, htd, if_neg hgo]

/-- C2 witness: the amended theorem at the spec scenario inputs. -/
theorem submitAll_appends_once_keeps_session_witness :
    ∃ entry,
      (submitAllTaskAnswers true 0 ("t0") sampleWindow sampleStore).1.taskHistory =
        sampleStore.taskHistory ++ [entry]
      ∧ (submitAllTaskAnswers true 0 ("t0") sampleWindow sampleStore).2 =
        SubmitOutcome.completed entry
      ∧ (submitAllTaskAnswers true 0 ("t0") sampleWindow sampleStore).1.currentTaskData =
        sampleStore.currentTaskData
      ∧ (submitAllTaskAnswers true 0 ("t0") sampleWindow sampleStore).1.subjects =
        sampleStore.subjects
      ∧ entry.subject = sampleTaskData.subject
      ∧ entry.topic = sampleTaskData.topic
      ∧ entry.totalQuestions = sampleWindow.currentTaskQuestions.length
      ∧ entry.correctAnswers =
        (sampleWindow.taskScores.filter (fun s => s == some 1)).length
      ∧ entry.timestamp = 0 :=
  submitAll_appends_once_keeps_session true 0 ("t0") sampleWindow sampleStore
    sampleTaskData rfl (by decide)

/-- C7: evaluation of the failure path at the failing input. A timeout
with one cached question leaves the client state (hence the task history)
untouched and escapes no exception, but the container ends up holding
only the questions markup: the failure banner written by the catch block
has been replaced by `renderTaskQuestions`'s `innerHTML` assignment, so
the cached questions are NOT shown together with a failure banner. With
no cached questions the banner does survive, followed by the
back-to-subjects empty state. -/
theorem generateQuestionsForTopic_failure_eval :
    (generateQuestionsForTopic cachedTaskData (Except.error ("timeout"))
        sampleClientState sampleWindow).1 = sampleClientState
    ∧ (generateQuestionsForTopic cachedTaskData (Except.error ("timeout"))
        sampleClientState sampleWindow).2.2 =
      [Fragment.questionsMarkup [JSVal.vobj (some ("Cached question")) none none]]
    ∧ ¬(Fragment.failureBanner ("timeout") ∈
        (generateQuestionsForTopic cachedTaskData (Except.error ("timeout"))
          sampleClientState sampleWindow).2.2)
    ∧ (generateQuestionsForTopic emptyCacheTaskData (Except.error ("timeout"))
        sampleClientState sampleWindow).1 = sampleClientState
    ∧ (generateQuestionsForTopic emptyCacheTaskData (Except.error ("timeout"))
        sampleClientState sampleWindow).2.2 =
      [Fragment.failureBanner ("timeout"), Fragment.emptyStateBackToSubjects] := by
  refine ⟨rfl, rfl, by decide, rfl, rfl⟩

theorem filter_ne_length_of_unique (l : List Subject) (sid : Nat)
    (h : l.Pairwise (fun a b => a.id ≠ b.id)) (hmem : ∃ s ∈ l, s.id = sid) :
    (l.filter (fun s => s.id != sid)).length + 1 = l.length := by
  induction l with
  | nil => simp at hmem
  | cons a rest ih =>
    rw [List.pairwise_cons] at h
    by_cases ha : a.id = sid
    · have hkeep : rest.filter (fun s => s.id != sid) = rest := by
        apply List.filter_eq_self.mpr
        intro s hs
        have hne := h.1 s hs
        simp only [bne_iff_ne, ne_eq]
        omega
      simp [List.filter_cons, ha, hkeep]
    · have hmem2 : ∃ s ∈ rest, s.id = sid := by
        rcases hmem with ⟨s, hs, hid⟩
        rcases List.mem_cons.mp hs with h1 | h1
        · subst h1; exact absurd hid ha
        · exact ⟨s, h1, hid⟩
      have hrec := ih h.2 hmem2
      have hcond : (a.id != sid) = true := by simpa using ha
      simp [List.filter_cons, hcond]
      omega

/-- C8: when subject ids are unique and a subject with the given id
exists, confirmed deletion removes exactly that subject — every other
subject remains (in order, unchanged), the result is one shorter — and
within the same operation the persisted subjects key equals the new
collection while the other persisted keys are untouched. -/
theorem deleteSubject_removes_exactly_one (sid : Nat) (st : ClientState)
    (h : st.appSubjects.Pairwise (fun a b => a.id ≠ b.id))
    (hmem : ∃ s ∈ st.appSubjects, s.id = sid) :
    (∀ s ∈ st.appSubjects, (s ∈ (deleteSubject true sid st).appSubjects ↔ s.id ≠ sid))
    ∧ (deleteSubject true sid st).appSubjects.Sublist st.appSubjects
    ∧ (deleteSubject true sid st).appSubjects.length + 1 = st.appSubjects.length
    ∧ (deleteSubject true sid st).store.subjects = (deleteSubject true sid st).appSubjects
    ∧ (deleteSubject true sid st).store.currentTaskData = st.store.currentTaskData
    ∧ (deleteSubject true sid st).store.taskHistory = st.store.taskHistory := by
  have hd : (deleteSubject true sid st).appSubjects =
      st.appSubjects.filter (fun s => s.id != sid) := rfl
  refine ⟨?_, ?_, ?_, rfl, rfl, rfl⟩
  · intro s hs
    rw [hd, List.mem_filter]
    constructor
    · rintro ⟨_, hps⟩
      simpa using hps
    · intro hne
      exact ⟨hs, by simpa using hne⟩
  · rw [hd]
    exact List.filter_sublist _
  · rw [hd]
    exact filter_ne_length_of_unique _ _ h hmem

/-- C8 witness: deleting subject id 1 from a two-subject state. -/
theorem deleteSubject_removes_exactly_one_witness :
    (∀ s ∈ twoSubjectState.appSubjects,
      (s ∈ (deleteSubject true 1 twoSubjectState).appSubjects ↔ s.id ≠ 1))
    ∧ (deleteSubject true 1 twoSubjectState).appSubjects.Sublist
        twoSubjectState.appSubjects
    ∧ (deleteSubject true 1 twoSubjectState).appSubjects.length + 1 =
        twoSubjectState.appSubjects.length
    ∧ (deleteSubject true 1 twoSubjectState).store.subjects =
        (deleteSubject true 1 twoSubjectState).appSubjects
    ∧ (deleteSubject true 1 twoSubjectState).store.currentTaskData =
        twoSubjectState.store.currentTaskData
    ∧ (deleteSubject true 1 twoSubjectState).store.taskHistory =
        twoSubjectState.store.taskHistory :=
  deleteSubject_removes_exactly_one 1 twoSubjectState
    (by decide) ⟨subjA, by decide, by decide⟩

/-- C9: subject creation enforces case-insensitive name uniqueness: if a
subject with the requested name (case-insensitively) already exists, the
whole client state is unchanged, and whenever the in-memory collection
holds pairwise case-insensitively distinct names, it still does after any
run of `generateSubject` — and so does the persisted collection, which on
the creating path equals the new in-memory collection. -/
theorem generateSubject_ci_uniqueness (inputValue : String)
    (apiResult : Except String GenContentResp) (now : Nat) (nowIso : String)
    (st : ClientState) :
    ((∃ s ∈ st.appSubjects, jsToLower s.name = jsToLower (jsTrim inputValue)) →
      generateSubject inputValue apiResult now nowIso st = st)
    ∧ (st.appSubjects.Pairwise (fun a b => jsToLower a.name ≠ jsToLower b.name) →
        (generateSubject inputValue apiResult now nowIso st).appSubjects.Pairwise
          (fun a b => jsToLower a.name ≠ jsToLower b.name)
        ∧ (st.store.subjects.Pairwise (fun a b => jsToLower a.name ≠ jsToLower b.name) →
            (generateSubject inputValue apiResult now nowIso st).store.subjects.Pairwise
              (fun a b => jsToLower a.name ≠ jsToLower b.name))) := by
  constructor
  · rintro ⟨s, hs, heq⟩
    by_cases c1 : (jsTrim inputValue == "") = true
    · simp [generateSubject, c1]
    · have c2 : (st.appSubjects.any
          fun x => jsToLower x.name == jsToLower (jsTrim inputValue)) = true := by
        rw [List.any_eq_true]
        exact ⟨s, hs, by simp [heq]⟩
      simp [generateSubject, c1, c2]
  · intro hm
    by_cases c1 : (jsTrim inputValue == "") = true
    · have hres : generateSubject inputValue apiResult now nowIso st = st := by
        simp [generateSubject, c1]
      rw [hres]
      exact ⟨hm, fun hp => hp⟩
    · by_cases c2 : (st.appSubjects.any
          fun x => jsToLower x.name == jsToLower (jsTrim inputValue)) = true
      · have hres : generateSubject inputValue apiResult now nowIso st = st := by
          simp [generateSubject, c1, c2]
        rw [hres]
        exact ⟨hm, fun hp => hp⟩
      · cases apiResult with
        | error e =>
          have hres : generateSubject inputValue (Except.error e) now nowIso st = st := by
            simp [generateSubject, c1, c2]
          rw [hres]
          exact ⟨hm, fun hp => hp⟩
        | ok resp =>
          have hnew : (generateSubject inputValue (Except.ok resp) now nowIso st).appSubjects.Pairwise
              (fun a b => jsToLower a.name ≠ jsToLower b.name) := by
            have hall : ∀ x ∈ st.appSubjects,
                jsToLower x.name ≠ jsToLower (jsTrim inputValue) := by
              intro x hx
              intro hcontra
              apply c2
              rw [List.any_eq_true]
              exact ⟨x, hx, by simp [hcontra]⟩
            simp only [generateSubject, c1, c2]
            simp only [Bool.not_eq_true] at c1 c2
            simp [c1, c2, saveState, List.pairwise_cons]
            exact ⟨fun x hx => (hall x hx).symm, hm⟩
          refine ⟨hnew, fun _ => ?_⟩
          have hstore : (generateSubject inputValue (Except.ok resp) now nowIso st).store.subjects =
              (generateSubject inputValue (Except.ok resp) now nowIso st).appSubjects := by
            simp only [generateSubject, c1, c2]
            simp only [Bool.not_eq_true] at c1 c2
            simp [c1, c2, saveState]
          rw [hstore]
          exact hnew

/-- C9 witness: creating " python " against an existing "Python" subject
changes nothing even though the backend succeeded; creating a fresh name
preserves pairwise case-insensitive distinctness. -/
theorem generateSubject_ci_uniqueness_witness :
    generateSubject ("  python ") (Except.ok sampleGenResp) 99 ("d9") twoSubjectState =
      twoSubjectState
    ∧ (generateSubject ("Chemistry") (Except.ok sampleGenResp) 99 ("d9")
        twoSubjectState).appSubjects.Pairwise
        (fun a b => jsToLower a.name ≠ jsToLower b.name) := by
  constructor
  · exact (generateSubject_ci_uniqueness ("  python ") (Except.ok sampleGenResp) 99 ("d9")
      twoSubjectState).1 ⟨subjA, by decide, by decide⟩
  · exact ((generateSubject_ci_uniqueness ("Chemistry") (Except.ok sampleGenResp) 99 ("d9")
      twoSubjectState).2 (by decide)).1

/-- C10: `generateSubject` is atomic on failure — when the backend call
throws, the in-memory subjects and the whole persisted store are exactly
as before; a subject is only ever added on the successful-response path. -/
theorem generateSubject_atomic_on_error (inputValue : String) (e : String)
    (now : Nat) (nowIso : String) (st : ClientState) :
    generateSubject inputValue (Except.error e) now nowIso st = st := by
  by_cases c1 : (jsTrim inputValue == "") = true
  · simp [generateSubject, c1]
  · by_cases c2 : (st.appSubjects.any
        fun x => jsToLower x.name == jsToLower (jsTrim inputValue)) = true
    · simp [generateSubject, c1, c2]
    · simp [generateSubject, c1, c2]

end Copilot
